import Mathlib

/-!
Verification development for the support chatbot repository.

Each definition below is a shallow embedding of a function from the
TypeScript sources.  Ambient runtime state (`localStorage`, the module-level
cache and rate-limit records, `navigator.onLine`, `Date.now()`, and the
outcome of each network attempt) is made explicit: state is passed and
returned, the clock is a `now : Nat` argument (milliseconds), and network
attempts are an oracle `Nat → _` giving the outcome of each attempt.
JavaScript peculiarities that matter to the claims (negative-index `slice`,
object aliasing in the response cache, falsy-default `||`) are modelled
explicitly where they occur; each such spot is noted in the doc comment of
the definition that embeds it.
-/

namespace SupportBot

/-- Message role, from `src/services/chat/types.ts` (`ChatMessage.role`). -/
inductive Role where
  | user
  | assistant
  | system
deriving DecidableEq, Repr

/-- A chat message, from `src/services/chat/types.ts` (`ChatMessage`).
`timestamp` is optional there and is assigned on append when absent. -/
structure ChatMessage where
  role : Role
  content : String
  timestamp : Option Nat
deriving DecidableEq, Repr

/-- Conversation context, from `src/services/chat/types.ts`
(`ConversationContext`).  The derived metadata sets (`productInterests`,
`orderReferences`, `supportTopics`, `userPreferences`) are populated by
`metadataExtractor.ts` and are independent of the message list and of
`lastUpdated`; no claim in this development refers to them, so only the
fields the claims touch are carried. -/
structure ConversationContext where
  messages : List ChatMessage
  lastUpdated : Nat
deriving DecidableEq, Repr

/-- `MAX_CONTEXT_SIZE` from `src/services/chat/types.ts`. -/
def MAX_CONTEXT_SIZE : Nat := 20

/-- `CONTEXT_EXPIRY` from `src/services/chat/types.ts` (24h in ms). -/
def CONTEXT_EXPIRY : Nat := 24 * 60 * 60 * 1000

/-- JavaScript `Array.prototype.slice(start)` for a single, possibly
negative, start index: a negative start counts from the end of the array
and clamps at 0. -/
def jsSliceFrom {α : Type} (l : List α) (start : Int) : List α :=
  if start < 0 then l.drop (l.length - (-start).toNat)
  else l.drop start.toNat

/-- The timestamp-defaulting step of `chatContextManager.addMessage`
(`src/services/chat/chatContextManager.ts` lines 33-36). -/
def withTimestamp (message : ChatMessage) (now : Nat) : ChatMessage :=
  if message.timestamp = none then { message with timestamp := some now }
  else message

/-- The size-bound trim of `chatContextManager.addMessage`
(`src/services/chat/chatContextManager.ts` lines 41-51): when the list
exceeds `MAX_CONTEXT_SIZE`, keep every `system` message, then the
`slice(-MAX_CONTEXT_SIZE + systemMessages.length)` suffix of the
non-`system` messages. -/
def trimMessages (l : List ChatMessage) : List ChatMessage :=
  if l.length > MAX_CONTEXT_SIZE then
    let systemMessages := l.filter (fun m => m.role = Role.system)
    let recentMessages :=
      jsSliceFrom (l.filter (fun m => ¬ m.role = Role.system))
        ((systemMessages.length : Int) - (MAX_CONTEXT_SIZE : Int))
    systemMessages ++ recentMessages
  else l

/-- `chatContextManager.addMessage`
(`src/services/chat/chatContextManager.ts` lines 25-63), given the result
of `this.getContext()` as `stored`.  Appends the (timestamped) message,
applies the size-bound trim, and stamps `lastUpdated := now`. -/
def addMessage (stored : Option ConversationContext) (message : ChatMessage)
    (now : Nat) : ConversationContext :=
  let context := stored.getD { messages := [], lastUpdated := now }
  let message := withTimestamp message now
  let pushed := context.messages ++ [message]
  { messages := trimMessages pushed, lastUpdated := now }

/-- `loadContext` from `src/unnamed/part_007` (contextStorage), over a typed
store: the stored record, when present, is returned unless its age exceeds
`CONTEXT_EXPIRY`, in which case the store is cleared (the JSON-parse-failure
branch, which also clears, is outside the typed model).  Returns
`(result, store after the read)`. -/
def loadContext (storage : Option ConversationContext) (now : Nat) :
    Option ConversationContext × Option ConversationContext :=
  match storage with
  | none => (none, none)
  | some context =>
      if (CONTEXT_EXPIRY : Int) < (now : Int) - (context.lastUpdated : Int) then
        (none, none)
      else (some context, some context)

/-- One Conversation Store append at the storage level:
`chatContextManager.addMessage` reads via `this.getContext()` (which is
`loadContext`, with its TTL side effect) and persists via `saveContext`. -/
def appendMessage (storage : Option ConversationContext) (message : ChatMessage)
    (now : Nat) : Option ConversationContext :=
  some (addMessage (loadContext storage now).1 message now)

/-- A sequence of Conversation Store appends: each event is a message
together with the clock value at which it is appended. -/
def runAppends (storage : Option ConversationContext)
    (events : List (ChatMessage × Nat)) : Option ConversationContext :=
  events.foldl (fun st e => appendMessage st e.1 e.2) storage

/-- Number of messages currently stored. -/
def storedMessageCount (storage : Option ConversationContext) : Nat :=
  match storage with
  | none => 0
  | some context => context.messages.length

/-- Number of `system`-role messages in a list. -/
def countSystem (l : List ChatMessage) : Nat :=
  (l.filter (fun m => m.role = Role.system)).length

/-- Number of `system`-role messages currently stored. -/
def storedSystemCount (storage : Option ConversationContext) : Nat :=
  match storage with
  | none => 0
  | some context => countSystem context.messages

/-- Per-domain rate-limit record, from
`src/services/browsing/rateLimiter.ts` (`RateLimitTracker`). -/
structure RateLimitTracker where
  domain : String
  requestTimes : List Nat
  limit : Nat
deriving DecidableEq, Repr

/-- `canMakeRequest` from `src/services/browsing/rateLimiter.ts` lines
22-47, given the tracker stored for the domain (or `none`).  Prunes
timestamps older than one minute (the JS comparison `time >= now - 60000`
against a possibly negative bound admits every `Nat` timestamp exactly as
the clamped `Nat` subtraction does) and admits the request when the
remaining count is below the stored limit.  Returns the verdict together
with the pruned tracker, which the source stores back into `rateLimits`. -/
def canMakeRequest (tracker : Option RateLimitTracker) (domain : String)
    (limit : Nat) (now : Nat) : Bool × RateLimitTracker :=
  let t := tracker.getD { domain := domain, requestTimes := [], limit := limit }
  let oneMinuteAgo := now - 60000
  let t := { t with requestTimes :=
    t.requestTimes.filter (fun time => oneMinuteAgo ≤ time) }
  (decide (t.requestTimes.length < t.limit), t)

/-- `recordRequest` from `src/services/browsing/rateLimiter.ts` lines
53-59: appends the current timestamp when a tracker exists, does nothing
otherwise. -/
def recordRequest (tracker : Option RateLimitTracker) (now : Nat) :
    Option RateLimitTracker :=
  match tracker with
  | none => none
  | some t => some { t with requestTimes := t.requestTimes ++ [now] }

/-- The rate-limit step of `browseUrl`
(`src/services/browsing/browsingCore.ts` lines 57-68): check, then record
on admission. -/
def attemptRequest (tracker : Option RateLimitTracker) (domain : String)
    (limit : Nat) (now : Nat) : Bool × Option RateLimitTracker :=
  if (canMakeRequest tracker domain limit now).1 then
    (true, recordRequest (some (canMakeRequest tracker domain limit now).2) now)
  else (false, some (canMakeRequest tracker domain limit now).2)

/-- Extraction profile, from `src/services/browsing/types.ts`
(`full | product | article | review`). -/
inductive ExtractionType where
  | full
  | product
  | article
  | review
deriving DecidableEq, Repr

/-- The cache-key spelling of an extraction profile. -/
def ExtractionType.name : ExtractionType → String
  | .full => "full"
  | .product => "product"
  | .article => "article"
  | .review => "review"

/-- `AllowedDomain` from `src/services/browsing/types.ts`. -/
structure AllowedDomain where
  domain : String
  allowSubdomains : Bool
  extractionTypes : List ExtractionType
  maxRequestsPerMinute : Nat
deriving DecidableEq, Repr

/-- `ALLOWED_DOMAINS` from the allowlist module
(`src/unnamed/part_012`). -/
def ALLOWED_DOMAINS : List AllowedDomain :=
  [ { domain := "amazon.com", allowSubdomains := true,
      extractionTypes := [ExtractionType.product, ExtractionType.review],
      maxRequestsPerMinute := 5 },
    { domain := "bestbuy.com", allowSubdomains := true,
      extractionTypes := [ExtractionType.product],
      maxRequestsPerMinute := 5 },
    { domain := "support.apple.com", allowSubdomains := false,
      extractionTypes := [ExtractionType.article],
      maxRequestsPerMinute := 10 },
    { domain := "samsung.com", allowSubdomains := true,
      extractionTypes := [ExtractionType.product, ExtractionType.article],
      maxRequestsPerMinute := 10 },
    { domain := "wikihow.com", allowSubdomains := false,
      extractionTypes := [ExtractionType.article],
      maxRequestsPerMinute := 10 } ]

/-- The outcome of `new URL(urlString)`: the fields the core reads.  URL
parsing itself is environment; callers of the model supply the parse
outcome (`none` models the constructor throwing). -/
structure UrlObj where
  protocol : String
  hostname : String
deriving DecidableEq, Repr

/-- `validateUrl` from `src/services/browsing/networkUtils.ts` lines
53-76, over the parse outcome: reject an unparseable URL or a non-HTTP(S)
scheme, otherwise hand back the URL object. -/
def validateUrl (parsed : Option UrlObj) : Except String UrlObj :=
  match parsed with
  | none => Except.error "Invalid URL format"
  | some url =>
      if url.protocol ≠ "http:" ∧ url.protocol ≠ "https:" then
        Except.error "Invalid URL protocol. Only HTTP and HTTPS are supported."
      else Except.ok url

/-- Character-list substring test, modelling JS `String.includes`. -/
def strIncludes (s sub : String) : Bool :=
  (List.range (s.length + 1)).any (fun i => sub.data.isPrefixOf (s.data.drop i))

/-- Character-list suffix test, modelling JS `String.endsWith`. -/
def strEndsWith (s suffixStr : String) : Bool :=
  suffixStr.data.isPrefixOf (s.data.drop (s.length - suffixStr.length))

/-- `isUrlAllowed` from the allowlist module (`src/unnamed/part_012`),
over the parse outcome of the request URL: first entry whose domain
matches the hostname exactly, or as a dot-separated suffix when the entry
permits subdomains. -/
def isUrlAllowed (parsed : Option UrlObj) (allowedDomains : List AllowedDomain) :
    Option AllowedDomain :=
  match parsed with
  | none => none
  | some url =>
      allowedDomains.find? (fun d =>
        if d.allowSubdomains then
          url.hostname == d.domain || strEndsWith url.hostname ("." ++ d.domain)
        else url.hostname == d.domain)

/-- Whether a response tag came from the cache or a live fetch, from
`src/services/browsing/types.ts` (`BrowsingResponse.source`). -/
inductive Source where
  | cache
  | live
deriving DecidableEq, Repr

/-- Extracted page metadata, from `src/services/browsing/types.ts`
(`BrowsingResponse.metadata`). -/
structure BrowseMetadata where
  title : Option String
  description : Option String
  price : Option String
  imageUrl : Option String
  lastUpdated : Option String
deriving DecidableEq, Repr

/-- `BrowsingResponse` from `src/services/browsing/types.ts`. -/
structure BrowsingResponse where
  success : Bool
  url : String
  content : Option String
  metadata : Option BrowseMetadata
  source : Source
  error : Option String
deriving DecidableEq, Repr

/-- `BrowsingRequest` from `src/services/browsing/types.ts`. -/
structure BrowsingRequest where
  url : String
  extractionType : Option ExtractionType
  cacheTime : Option Nat
deriving DecidableEq, Repr

/-- One entry of the in-memory `browsingCache`
(`src/services/browsing/cache.ts`). -/
structure CacheEntry where
  response : BrowsingResponse
  expiresAt : Nat
deriving DecidableEq, Repr

/-- The in-memory `browsingCache` object, keyed by `url:extractionType`. -/
abbrev CacheMap : Type := List (String × CacheEntry)

/-- Key lookup in the cache object. -/
def cacheLookup (cache : CacheMap) (key : String) : Option CacheEntry :=
  (List.find? (fun p => p.1 == key) cache).map (fun p => p.2)

/-- `delete browsingCache[key]`. -/
def cacheErase (cache : CacheMap) (key : String) : CacheMap :=
  List.filter (fun p => p.1 != key) cache

/-- `browsingCache[key] = entry`. -/
def cacheInsert (cache : CacheMap) (key : String) (entry : CacheEntry) :
    CacheMap :=
  (key, entry) :: cacheErase cache key

/-- `cacheResponse` from `src/services/browsing/cache.ts` lines 17-25.
The source stores the `response` object and THEN runs
`response.source = cache`; the stored entry and the reference the caller
still holds are the same object, so both end up tagged `cache`.  The model
returns the pair (cache after the store, the caller-visible object after
the mutation). -/
def cacheResponse (cache : CacheMap) (url : String)
    (response : BrowsingResponse) (cacheTime : Nat) (now : Nat) :
    CacheMap × BrowsingResponse :=
  let expiresAt := now + cacheTime * 1000
  let mutated := { response with source := Source.cache }
  (cacheInsert cache url { response := mutated, expiresAt := expiresAt },
    mutated)

/-- `getCachedResponse` from `src/services/browsing/cache.ts` lines 32-47:
a miss returns `none`; an expired entry is deleted and treated as a miss.
Returns (cache after the lookup, result). -/
def getCachedResponse (cache : CacheMap) (url : String) (now : Nat) :
    CacheMap × Option BrowsingResponse :=
  match cacheLookup cache url with
  | none => (cache, none)
  | some cached =>
      if cached.expiresAt < now then (cacheErase cache url, none)
      else (cache, some cached.response)

/-- `MAX_RETRIES` from the browsing retry utilities
(`src/src/services/browsing/contentExtractor.ts` concatenation, retryUtils
section). -/
def BROWSING_MAX_RETRIES : Nat := 3

/-- `BASE_RETRY_DELAY` (ms) from the browsing retry utilities. -/
def BASE_RETRY_DELAY : Nat := 1000

/-- `isRetryableStatus` from the browsing retry utilities: retry on 429
and on every 5xx-or-above status. -/
def isRetryableStatus (status : Nat) : Bool :=
  status == 429 || decide (500 ≤ status)

/-- `isRetryableError` from the browsing retry utilities: `AbortError`, or
a message mentioning `NetworkError`, `network` or `CORS`. -/
def isRetryableError (name message : String) : Bool :=
  name == "AbortError" || strIncludes message "NetworkError"
    || strIncludes message "network" || strIncludes message "CORS"

/-- The outcome of one `fetchWithTimeout` network attempt: either the
promise resolves with an HTTP response (status plus body text), or it
rejects with an error carrying a name and a message. -/
inductive FetchOutcome where
  | response (status : Nat) (body : String)
  | thrown (name : String) (message : String)
deriving DecidableEq, Repr

/-- The result of running the fetch loop: the caller-visible response, the
number of network attempts made, the backoff delays awaited (ms, in
order), and the cache afterwards. -/
structure BrowseTrace where
  response : BrowsingResponse
  attempts : Nat
  delays : List Nat
  cache : CacheMap
deriving DecidableEq, Repr

/-- The failure result built after the retry loop of `fetchWithRetries`
(`src/src/services/browsing/browsingCore.ts` lines 157-163). -/
def retriesFailResponse (requestUrl : String) (lastError : Option String) :
    BrowsingResponse :=
  { success := false, url := requestUrl, content := none, metadata := none,
    source := Source.live,
    error := some (match lastError with
      | some m => "Error: " ++ m
      | none => "Failed after maximum retry attempts") }

/-- The loop body of `fetchWithRetries`
(`src/src/services/browsing/browsingCore.ts` lines 95-155), by recursion
on the remaining iterations (`fuel` starts at `BROWSING_MAX_RETRIES`;
`attempt` is the 0-based loop index).  `env` gives the network outcome of each attempt;
`extract` is the Content Extractor (`extractContent`), supplied
as environment.  A non-OK status sets `lastError` and retries after
`BASE_RETRY_DELAY * 2 ^ attempt` when the status is retryable (even on the
final iteration, matching the `continue` of the source), else breaks; a thrown
error retries only when retryable and not on the final iteration; a
success extracts, caches (see `cacheResponse` for the aliasing) and
returns. -/
def fetchWithRetriesAux (env : Nat → FetchOutcome)
    (extract : String → String → ExtractionType → String × BrowseMetadata)
    (requestUrl : String) (extractionType : ExtractionType)
    (cacheKey : String) (resolvedCacheTime : Nat) (cache : CacheMap)
    (now : Nat) (attempt : Nat) (fuel : Nat) (lastError : Option String)
    (delays : List Nat) : BrowseTrace :=
  match fuel with
  | 0 =>
      { response := retriesFailResponse requestUrl lastError,
        attempts := attempt, delays := delays, cache := cache }
  | Nat.succ fuel =>
      match env attempt with
      | FetchOutcome.response status body =>
          if ¬ (200 ≤ status ∧ status ≤ 299) then
            let errorMsg := "HTTP error: " ++ toString status
            if isRetryableStatus status then
              fetchWithRetriesAux env extract requestUrl extractionType
                cacheKey resolvedCacheTime cache now (attempt + 1) fuel
                (some errorMsg) (delays ++ [BASE_RETRY_DELAY * 2 ^ attempt])
            else
              { response := retriesFailResponse requestUrl (some errorMsg),
                attempts := attempt + 1, delays := delays, cache := cache }
          else
            let extracted := extract body requestUrl extractionType
            let browsingResponse : BrowsingResponse :=
              { success := true, url := requestUrl,
                content := some extracted.1, metadata := some extracted.2,
                source := Source.live, error := none }
            let stored := cacheResponse cache cacheKey browsingResponse
              resolvedCacheTime now
            { response := stored.2, attempts := attempt + 1, delays := delays,
              cache := stored.1 }
      | FetchOutcome.thrown name message =>
          if isRetryableError name message ∧ attempt < BROWSING_MAX_RETRIES - 1 then
            fetchWithRetriesAux env extract requestUrl extractionType
              cacheKey resolvedCacheTime cache now (attempt + 1) fuel
              (some message) (delays ++ [BASE_RETRY_DELAY * 2 ^ attempt])
          else
            { response := retriesFailResponse requestUrl (some message),
              attempts := attempt + 1, delays := delays, cache := cache }

/-- `fetchWithRetries` as entered from `browseUrl`: loop index 0, full
fuel, no last error, no delays yet. -/
def fetchWithRetries (env : Nat → FetchOutcome)
    (extract : String → String → ExtractionType → String × BrowseMetadata)
    (requestUrl : String) (extractionType : ExtractionType)
    (cacheKey : String) (resolvedCacheTime : Nat) (cache : CacheMap)
    (now : Nat) : BrowseTrace :=
  fetchWithRetriesAux env extract requestUrl extractionType cacheKey
    resolvedCacheTime cache now 0 BROWSING_MAX_RETRIES none []

/-- The module-level `rateLimits` record, keyed by domain. -/
abbrev RateMap : Type := List (String × RateLimitTracker)

/-- `rateLimits[domain]` lookup. -/
def rateLookup (rates : RateMap) (domain : String) : Option RateLimitTracker :=
  (List.find? (fun p => p.1 == domain) rates).map (fun p => p.2)

/-- `rateLimits[domain] = tracker`. -/
def rateInsert (rates : RateMap) (domain : String)
    (tracker : RateLimitTracker) : RateMap :=
  (domain, tracker) :: List.filter (fun p => p.1 != domain) rates

/-- The full result of one `browseUrl` call: response, network attempts,
backoff delays, and both shared mutable structures afterwards. -/
structure BrowseResult where
  response : BrowsingResponse
  attempts : Nat
  delays : List Nat
  cache : CacheMap
  rates : RateMap

/-- A `browseUrl` failure result produced before any network attempt
(validation, allowlist, rate-limit short circuits), which the source
builds with `success: false`, `source: live` and an error string. -/
def browseFailResponse (requestUrl : String) (error : String) :
    BrowsingResponse :=
  { success := false, url := requestUrl, content := none, metadata := none,
    source := Source.live, error := some error }

/-- `browseUrl` from `src/src/services/browsing/browsingCore.ts` lines
20-82.  `parsed` is the outcome of `new URL(request.url)` (used both by
`validateUrl` and by `isUrlAllowed`, which re-parses the same string);
`domainDefaultCacheTime` stands for `domain.defaultCacheTime`, a field the
source reads although no `ALLOWED_DOMAINS` entry defines it (the domain
value is typed `any` there); `env`/`extract` are the network and Content
Extractor environments.  The `request.cacheTime || domain.defaultCacheTime`
fallback is falsy-based, so an explicit `cacheTime` of `0` also falls back. -/
def browseUrl (allowedDomains : List AllowedDomain) (parsed : Option UrlObj)
    (request : BrowsingRequest) (domainDefaultCacheTime : Nat)
    (env : Nat → FetchOutcome)
    (extract : String → String → ExtractionType → String × BrowseMetadata)
    (cache : CacheMap) (rates : RateMap) (now : Nat) : BrowseResult :=
  match validateUrl parsed with
  | Except.error e =>
      { response := browseFailResponse request.url e, attempts := 0,
        delays := [], cache := cache, rates := rates }
  | Except.ok _ =>
      match isUrlAllowed parsed allowedDomains with
      | none =>
          { response := browseFailResponse request.url
              "URL not in allowed domains list",
            attempts := 0, delays := [], cache := cache, rates := rates }
      | some domain =>
          let extractionType := match request.extractionType with
            | some t => if domain.extractionTypes.contains t then t
                        else ExtractionType.full
            | none => ExtractionType.full
          let cacheKey := request.url ++ ":" ++ extractionType.name
          let lookedUp := getCachedResponse cache cacheKey now
          match lookedUp.2 with
          | some cachedResponse =>
              { response := cachedResponse, attempts := 0, delays := [],
                cache := lookedUp.1, rates := rates }
          | none =>
              let checked := canMakeRequest (rateLookup rates domain.domain)
                domain.domain domain.maxRequestsPerMinute now
              if ¬ checked.1 then
                { response := browseFailResponse request.url
                    ("Rate limit exceeded for " ++ domain.domain),
                  attempts := 0, delays := [], cache := lookedUp.1,
                  rates := rateInsert rates domain.domain checked.2 }
              else
                let recorded := (recordRequest (some checked.2) now).getD
                  checked.2
                let resolvedCacheTime := match request.cacheTime with
                  | some t => if t == 0 then domainDefaultCacheTime else t
                  | none => domainDefaultCacheTime
                let tr := fetchWithRetries env extract request.url
                  extractionType cacheKey resolvedCacheTime lookedUp.1 now
                { response := tr.response, attempts := tr.attempts,
                  delays := tr.delays, cache := tr.cache,
                  rates := rateInsert rates domain.domain recorded }

/-- `MAX_RETRIES` from `src/services/claude/types.ts` and the OpenAI
types module (`src/unnamed/part_008`); both define 3. -/
def PROVIDER_MAX_RETRIES : Nat := 3

/-- `RETRY_DELAY_MS` from the same two types modules; both define 1000. -/
def RETRY_DELAY_MS : Nat := 1000

/-- The observable outcome of one provider-client attempt: the
`navigator.onLine` probe fails, or `fetch` resolves with an HTTP status
(`text` is the reply text parsed from the body when the status is OK), or
`fetch` rejects with an error (name, `instanceof TypeError`, message). -/
inductive ApiAttempt where
  | offline
  | response (status : Nat) (text : String)
  | thrown (name : String) (isTypeError : Bool) (message : String)
deriving DecidableEq, Repr

/-- What the body of `sendWithRetry` (everything inside the outer `try`)
does with one attempt: return the response, retry from the inner
429/5xx branch, or throw an error message up to the outer `catch`. -/
inductive SendStep where
  | ok (text : String)
  | retryNow
  | thrown (message : String)
deriving DecidableEq, Repr

/-- The inner `catch` of `sendWithRetry`: an `AbortError` becomes
`timeout`, a `TypeError` mentioning `NetworkError` becomes `network`, any
other rejection is rethrown with its own message. -/
def classifyThrown (name : String) (isTypeError : Bool) (message : String) :
    String :=
  if name = "AbortError" then "timeout"
  else if isTypeError ∧ strIncludes message "NetworkError" then "network"
  else message

/-- The outer-`try` body of `sendWithRetry`
(`src/src/services/claude/apiClient.ts` lines 20-83 and the token-identical
`src/src/services/openai/apiClient.ts` lines 20-82): offline probe throws
`offline`; a non-OK response throws `API error: <status>` at or beyond
`MAX_RETRIES`, retries on 429/5xx, and throws `API error: <status>`
otherwise; a rejected fetch is rewrapped by the inner catch
(`classifyThrown`) and rethrown. -/
def bodyOf (attempt : Nat) (outcome : ApiAttempt) : SendStep :=
  match outcome with
  | ApiAttempt.offline => SendStep.thrown "offline"
  | ApiAttempt.response status text =>
      if ¬ (200 ≤ status ∧ status ≤ 299) then
        if PROVIDER_MAX_RETRIES ≤ attempt then
          SendStep.thrown ("API error: " ++ toString status)
        else if status = 429 ∨ 500 ≤ status then
          SendStep.retryNow
        else SendStep.thrown ("API error: " ++ toString status)
      else SendStep.ok text
  | ApiAttempt.thrown name isTypeError message =>
      SendStep.thrown (classifyThrown name isTypeError message)

/-- The observable trace of a `sendWithRetry` call: the reply text or the
error message that escapes, the index of the last attempt made, and the
backoff delays awaited (ms, in order). -/
structure SendTrace where
  result : Except String String
  attempts : Nat
  delays : List Nat
deriving Repr

/-- `sendWithRetry` from `src/src/services/claude/apiClient.ts` lines
15-99 (and the token-identical OpenAI client), by recursion on remaining
fuel; `attempt` is the 1-based attempt counter of the source.  The outer
`catch` retries, after `RETRY_DELAY_MS * 2 ^ (attempt - 1)`, exactly when
`attempt < MAX_RETRIES` and the thrown message is none of `offline`,
`timeout`, `network`; the inner 429/5xx branch retries with the same
delay.  Fuel `PROVIDER_MAX_RETRIES` is never exhausted from the entry
point, since no branch recurses at `attempt = MAX_RETRIES`. -/
def sendWithRetryAux (env : Nat → ApiAttempt) (attempt : Nat) (fuel : Nat) :
    SendTrace :=
  match fuel with
  | 0 => { result := Except.error "offline", attempts := attempt, delays := [] }
  | Nat.succ f =>
      match bodyOf attempt (env attempt) with
      | SendStep.ok text =>
          { result := Except.ok text, attempts := attempt, delays := [] }
      | SendStep.retryNow =>
          let delay := RETRY_DELAY_MS * 2 ^ (attempt - 1)
          let tr := sendWithRetryAux env (attempt + 1) f
          { result := tr.result, attempts := tr.attempts,
            delays := delay :: tr.delays }
      | SendStep.thrown m =>
          if attempt < PROVIDER_MAX_RETRIES
              ∧ ¬ (m = "offline" ∨ m = "timeout" ∨ m = "network") then
            let delay := RETRY_DELAY_MS * 2 ^ (attempt - 1)
            let tr := sendWithRetryAux env (attempt + 1) f
            { result := tr.result, attempts := tr.attempts,
              delays := delay :: tr.delays }
          else { result := Except.error m, attempts := attempt, delays := [] }

/-- `sendWithRetry` as called by the services: attempt 1, full fuel. -/
def sendWithRetry (env : Nat → ApiAttempt) : SendTrace :=
  sendWithRetryAux env 1 PROVIDER_MAX_RETRIES

/-- Spec-side description of the retry condition the provider clients
actually implement (used to state the amended claim C2): an attempt is
followed by a retry exactly when it is not the final allowed attempt and
its failure is an HTTP error status of any kind, or a thrown error that
classifies to none of `offline`, `timeout`, `network`.  In particular a
timeout, a network-layer error, or an offline probe is never retried. -/
def retryEligible (attempt : Nat) (outcome : ApiAttempt) : Bool :=
  decide (attempt < PROVIDER_MAX_RETRIES) &&
  match outcome with
  | ApiAttempt.offline => false
  | ApiAttempt.response status _ => ! decide (200 ≤ status ∧ status ≤ 299)
  | ApiAttempt.thrown name isTypeError message =>
      let m := classifyThrown name isTypeError message
      ! (m == "offline" || m == "timeout" || m == "network")

/-- Spec-side classification of a terminal attempt: the reply on an OK
status, the surfaced error message otherwise. -/
def attemptClass (outcome : ApiAttempt) : Except String String :=
  match outcome with
  | ApiAttempt.offline => Except.error "offline"
  | ApiAttempt.response status text =>
      if 200 ≤ status ∧ status ≤ 299 then Except.ok text
      else Except.error ("API error: " ++ toString status)
  | ApiAttempt.thrown name isTypeError message =>
      Except.error (classifyThrown name isTypeError message)

/-- Spec-side trace of `sendWithRetry` built from `retryEligible` and
`attemptClass` (the amended claim C2 in one definition): keep retrying
while eligible, stop after at most 3 attempts, and await
`RETRY_DELAY_MS * 2 ^ (k - 1)` before retry `k`. -/
def expectedSendTrace (env : Nat → ApiAttempt) : SendTrace :=
  let attempts :=
    if retryEligible 1 (env 1) then
      (if retryEligible 2 (env 2) then 3 else 2)
    else 1
  { result := attemptClass (env attempts), attempts := attempts,
    delays := (List.range (attempts - 1)).map
      (fun i => RETRY_DELAY_MS * 2 ^ i) }

/-- `handleError` from `src/src/services/claude/errorHandler.ts` lines
13-39: maps the thrown message to a user-facing apology; it does NOT
touch the Conversation Store. -/
def claudeHandleError (message : String) : String :=
  if message = "offline" then
    "It looks like you\x27re currently offline. Please check your internet connection and try again when you\x27re back online."
  else if message = "timeout" then
    "I\x27m sorry, but the request timed out. Our AI service might be experiencing high traffic. Please try again in a few moments."
  else if strIncludes message "fetch" ∨ strIncludes message "network" then
    "I\x27m having trouble connecting to my knowledge base due to network issues. Please check your internet connection and try again in a moment. If the problem persists, our servers might be experiencing issues."
  else if strIncludes message "429" then
    "I\x27ve reached my rate limit. Please wait a moment before sending another message."
  else if strIncludes message "401" then
    "There seems to be an issue with my authentication. Please check your API key in settings."
  else
    "I\x27m sorry, I encountered an error processing your request. Please try again later."

/-- The result of one service-level `sendMessage`: the reply returned to
the caller, the Conversation Store afterwards, and how many network
attempts were made (0 = no provider call was attempted). -/
structure ServiceResult where
  reply : String
  store : Option ConversationContext
  networkAttempts : Nat
deriving Repr

/-- `claudeService.sendMessage` from
`src/src/services/claude/claudeService.ts` lines 22-73.  With no API key
it returns a configuration message without touching the store.  With a
key: an offline runtime throws `offline` BEFORE
`chatContextManager.addMessage`, so the catch hands the message to
`handleError` and the store is never touched; otherwise the user message
is appended, `sendWithRetry` runs, and on success the assistant reply is
appended while on failure `handleError` only produces the returned
apology text. -/
def claudeSendMessage (store : Option ConversationContext) (onLine : Bool)
    (apiKey : Option String) (message : ChatMessage)
    (env : Nat → ApiAttempt) (now : Nat) : ServiceResult :=
  match apiKey with
  | none =>
      { reply := "I\x27m unable to process your request at the moment. Please check that a Claude API key has been configured.",
        store := store, networkAttempts := 0 }
  | some _ =>
      if onLine = false then
        { reply := claudeHandleError "offline", store := store,
          networkAttempts := 0 }
      else
        let context := appendMessage store message now
        let tr := sendWithRetry env
        match tr.result with
        | Except.ok text =>
            let context2 := appendMessage context
              { role := Role.assistant, content := text, timestamp := some now }
              now
            { reply := text, store := context2, networkAttempts := tr.attempts }
        | Except.error m =>
            { reply := claudeHandleError m, store := context,
              networkAttempts := tr.attempts }

/-- `handleError` from the OpenAI error handler (`src/unnamed/part_009`):
unlike the Claude one it APPENDS the apology to the Conversation Store
before returning it. -/
def openaiHandleError (store : Option ConversationContext) (message : String)
    (now : Nat) : String × Option ConversationContext :=
  let errorMessage :=
    if message = "offline" ∨ strIncludes message "NetworkError"
        ∨ strIncludes message "network" then
      "It looks like you\x27re currently offline. Please check your internet connection and try again when you\x27re back online."
    else if message = "timeout" then
      "I\x27m sorry, but the request timed out. Our AI service might be experiencing high traffic. Please try again in a few moments."
    else if strIncludes message "fetch" ∨ strIncludes message "network" then
      "I\x27m having trouble connecting to my knowledge base due to network issues. Please check your internet connection and try again in a moment. If the problem persists, our servers might be experiencing issues."
    else if strIncludes message "429" then
      "I\x27ve reached my rate limit. Please wait a moment before sending another message."
    else if strIncludes message "401" then
      "There seems to be an issue with my authentication. Please check your API key in settings."
    else
      "I\x27m sorry, I encountered an error processing your request. Please try again later."
  (errorMessage, appendMessage store
    { role := Role.assistant, content := errorMessage, timestamp := some now }
    now)

/-- `openaiService.sendMessage` from
`src/src/services/openai/openaiService.ts` lines 21-81: same shape as the
Claude service, but failures flow through the OpenAI `handleError`, which
appends the apology to the store.  (The `Invalid response from OpenAI API`
branch for a reply with no choices is part of the same catch path; the
the `env` of the model carries the parsed reply text directly.) -/
def openaiSendMessage (store : Option ConversationContext) (onLine : Bool)
    (apiKey : Option String) (message : ChatMessage)
    (env : Nat → ApiAttempt) (now : Nat) : ServiceResult :=
  match apiKey with
  | none =>
      { reply := "I\x27m unable to process your request at the moment. Please check that an OpenAI API key has been configured.",
        store := store, networkAttempts := 0 }
  | some _ =>
      if onLine = false then
        let handled := openaiHandleError store "offline" now
        { reply := handled.1, store := handled.2, networkAttempts := 0 }
      else
        let context := appendMessage store message now
        let tr := sendWithRetry env
        match tr.result with
        | Except.ok text =>
            let context2 := appendMessage context
              { role := Role.assistant, content := text, timestamp := some now }
              now
            { reply := text, store := context2, networkAttempts := tr.attempts }
        | Except.error m =>
            let handled := openaiHandleError context m now
            { reply := handled.1, store := handled.2,
              networkAttempts := tr.attempts }

/-- The provider-selection resolution of `aiService.sendMessage`
(`src/unnamed/part_011` line 373): `localStorage.getItem(..) || claude`,
so both an absent and an empty selection fall back to `claude`. -/
def resolveProvider (selectedProvider : Option String) : String :=
  match selectedProvider with
  | none => "claude"
  | some s => if s = "" then "claude" else s

/-- `aiService.sendMessage` from `src/unnamed/part_011` lines 372-528,
restricted to plain messages — those for which `detectBrowsingRequest`
returns `null`, so the retrieval branch (lines 383-465) is skipped and
control reaches the per-provider dispatch.  A missing key for the
dispatched provider throws `missing_api_key_*`, which the outer catch
turns into a configuration prompt; in the `both` chain a present Claude
key always dispatches to the Claude service (which never throws, so the
fallback is not reached), while a missing one falls through to OpenAI.
An unknown selection defaults to whichever key exists, else throws
`no_api_keys`. -/
def aiSendMessagePlain (store : Option ConversationContext) (onLine : Bool)
    (claudeKey openaiKey : Option String) (selectedProvider : Option String)
    (message : ChatMessage) (envC envO : Nat → ApiAttempt) (now : Nat) :
    ServiceResult :=
  if resolveProvider selectedProvider = "claude" then
    match claudeKey with
    | none =>
        { reply := "Please add your Claude API key in the settings to use this service.",
          store := store, networkAttempts := 0 }
    | some k => claudeSendMessage store onLine (some k) message envC now
  else if resolveProvider selectedProvider = "openai" then
    match openaiKey with
    | none =>
        { reply := "Please add your OpenAI API key in the settings to use this service.",
          store := store, networkAttempts := 0 }
    | some k => openaiSendMessage store onLine (some k) message envO now
  else if resolveProvider selectedProvider = "both" then
    match claudeKey with
    | some k => claudeSendMessage store onLine (some k) message envC now
    | none =>
        match openaiKey with
        | none =>
            { reply := "Please add your OpenAI API key in the settings to use this service.",
              store := store, networkAttempts := 0 }
        | some k => openaiSendMessage store onLine (some k) message envO now
  else
    match claudeKey with
    | some k => claudeSendMessage store onLine (some k) message envC now
    | none =>
        match openaiKey with
        | some k => openaiSendMessage store onLine (some k) message envO now
        | none =>
            { reply := "Please configure at least one AI provider API key in the settings.",
              store := store, networkAttempts := 0 }

/-- Spec-side reading of the C9 precondition, `no provider credential is
configured for the selected provider`: the key (or keys, for the `both`
chain and the unknown-selection fallback) that the resolved selection
would dispatch with is absent. -/
def credentialsMissing (claudeKey openaiKey : Option String)
    (selectedProvider : Option String) : Prop :=
  if resolveProvider selectedProvider = "claude" then claudeKey = none
  else if resolveProvider selectedProvider = "openai" then openaiKey = none
  else claudeKey = none ∧ openaiKey = none

/-- Invariant of the browsing cache: every stored entry was produced by
`cacheResponse` from a successful fetch, so it carries `success = true`
and no error. -/
def CacheWF (cache : CacheMap) : Prop :=
  ∀ p ∈ cache, p.2.response.success = true ∧ p.2.response.error = none

/-- A network-attempt outcome that is a retryable failure in the sense of
the browsing retry utilities: a non-OK HTTP status that
`isRetryableStatus` accepts, or a rejection that `isRetryableError`
accepts. -/
def retryableOutcome (o : FetchOutcome) : Prop :=
  match o with
  | FetchOutcome.response status _ =>
      ¬ (200 ≤ status ∧ status ≤ 299) ∧ isRetryableStatus status = true
  | FetchOutcome.thrown name message => isRetryableError name message = true

/-- The error description `fetchWithRetries` records for a failed
attempt: the `HTTP error: <status>` message for a non-OK response, the
the own message of the thrown error otherwise. -/
def outcomeErrorDesc (o : FetchOutcome) : String :=
  match o with
  | FetchOutcome.response status _ => "HTTP error: " ++ toString status
  | FetchOutcome.thrown _ message => message

/-- A trivial Content Extractor for concrete evaluations: the raw body as
content, empty metadata. -/
def demoExtract : String → String → ExtractionType → String × BrowseMetadata :=
  fun body _ _ =>
    (body, { title := none, description := none, price := none,
             imageUrl := none, lastUpdated := none })

/-- A concrete allow-listed product request for concrete evaluations. -/
def demoRequest : BrowsingRequest :=
  { url := "https://www.amazon.com/s?k=phone",
    extractionType := some ExtractionType.product, cacheTime := some 1800 }

/-- The parse outcome of `demoRequest.url`. -/
def demoParsed : Option UrlObj :=
  some { protocol := "https:", hostname := "www.amazon.com" }

/-- A network environment whose every attempt succeeds with HTTP 200. -/
def demoEnv : Nat → FetchOutcome :=
  fun _ => FetchOutcome.response 200 "page html"

/-- A full context of 20 user messages. -/
def demoFullCtx : ConversationContext :=
  { messages := List.replicate 20
      { role := Role.user, content := "u", timestamp := some 0 },
    lastUpdated := 0 }

/-- A `system` message appended onto `demoFullCtx` in the C4 witness. -/
def demoSys : ChatMessage :=
  { role := Role.system, content := "sys", timestamp := some 2 }

/-- A stored context at the size bound: one `system` persona message
followed by 19 user messages. -/
def demoCtx : ConversationContext :=
  { messages :=
      { role := Role.system, content := "persona", timestamp := some 0 }
        :: List.replicate 19
            { role := Role.user, content := "u", timestamp := some 0 },
    lastUpdated := 0 }

/-- A 21st message that triggers the size-bound trim on `demoCtx`. -/
def demoUser : ChatMessage :=
  { role := Role.user, content := "new", timestamp := some 9 }

/-- A rate state for `amazon.com` already holding 5 recent timestamps
(the ceiling of that domain). -/
def demoSaturatedRates : RateMap :=
  [("amazon.com",
    { domain := "amazon.com", requestTimes := [100, 200, 300, 400, 500],
      limit := 5 })]

/-- An environment whose three attempts fail with HTTP 500, HTTP 503, and
a network-layer rejection. -/
def demoFailEnv : Nat → FetchOutcome := fun n =>
  if n = 0 then FetchOutcome.response 500 ""
  else if n = 1 then FetchOutcome.response 503 ""
  else FetchOutcome.thrown "TypeError"
    "NetworkError when attempting to fetch resource."

/-- First `browseUrl` call of the concrete two-call scenario: empty cache
and rate state, clock at 1000 ms. -/
def demoFirst : BrowseResult :=
  browseUrl ALLOWED_DOMAINS demoParsed demoRequest 3600 demoEnv demoExtract
    [] [] 1000

/-- Second `browseUrl` call for the same request 1 second later, against
the state the first call left behind (well within the 1800 s TTL). -/
def demoSecond : BrowseResult :=
  browseUrl ALLOWED_DOMAINS demoParsed demoRequest 3600 demoEnv demoExtract
    demoFirst.cache demoFirst.rates 2000

theorem jsSliceFrom_isSuffix {α : Type} (l : List α) (start : Int) :
    List.IsSuffix (jsSliceFrom l start) l := by
  unfold jsSliceFrom
  split
  · exact List.drop_suffix _ l
  · exact List.drop_suffix _ l

theorem countSystem_append (l₁ l₂ : List ChatMessage) :
    countSystem (l₁ ++ l₂) = countSystem l₁ + countSystem l₂ := by
  simp [countSystem, List.filter_append]

theorem withTimestamp_role (m : ChatMessage) (now : Nat) :
    (withTimestamp m now).role = m.role := by
  unfold withTimestamp
  split <;> rfl

/-- The trim never raises the message count above `MAX_CONTEXT_SIZE` as long
as fewer than `MAX_CONTEXT_SIZE` of the messages have role `system`. -/
theorem trimMessages_length_le (l : List ChatMessage)
    (h : countSystem l ≤ 19) : (trimMessages l).length ≤ 20 := by
  unfold trimMessages
  unfold countSystem at h
  split
  · simp only [List.length_append]
    unfold jsSliceFrom
    rw [if_pos (by simp only [MAX_CONTEXT_SIZE]; omega)]
    simp only [List.length_drop, MAX_CONTEXT_SIZE]
    omega
  · rename_i hlen
    simp only [MAX_CONTEXT_SIZE, Nat.not_lt] at hlen
    exact hlen

/-- The trim preserves the `system` messages exactly. -/
theorem countSystem_trimMessages (l : List ChatMessage) :
    countSystem (trimMessages l) = countSystem l := by
  unfold trimMessages
  split
  · rw [countSystem_append]
    have hsys : countSystem (l.filter (fun m => m.role = Role.system))
        = countSystem l := by
      unfold countSystem
      rw [List.filter_eq_self.mpr]
      intro a ha
      exact (List.mem_filter.mp ha).2
    have hrec : countSystem
        (jsSliceFrom (l.filter (fun m => ¬ m.role = Role.system))
          ((List.length (l.filter (fun m => m.role = Role.system)) : Int)
            - (MAX_CONTEXT_SIZE : Int))) = 0 := by
      unfold countSystem
      rw [List.filter_eq_nil_iff.mpr, List.length_nil]
      intro a ha
      have hmem : a ∈ l.filter (fun m => ¬ m.role = Role.system) :=
        (jsSliceFrom_isSuffix _ _).subset ha
      have := (List.mem_filter.mp hmem).2
      simpa using this
    rw [hsys, hrec]
    omega
  · rfl

/-- Every `system` message of the input survives the trim. -/
theorem trimMessages_system_mem (l : List ChatMessage) (x : ChatMessage)
    (hx : x ∈ l) (hrole : x.role = Role.system) : x ∈ trimMessages l := by
  unfold trimMessages
  split
  · exact List.mem_append_left _
      (List.mem_filter.mpr ⟨hx, by simpa using hrole⟩)
  · exact hx

theorem loadContext_fst_cases (storage : Option ConversationContext)
    (now : Nat) :
    (loadContext storage now).1 = none ∨
    (loadContext storage now).1 = storage := by
  match storage with
  | none => exact Or.inl rfl
  | some c =>
    unfold loadContext
    dsimp only
    by_cases hc : (CONTEXT_EXPIRY : Int) < (now : Int) - (c.lastUpdated : Int)
    · rw [if_pos hc]
      exact Or.inl rfl
    · rw [if_neg hc]
      exact Or.inr rfl

theorem countSystem_singleton (m : ChatMessage) :
    countSystem [m] = if m.role = Role.system then 1 else 0 := by
  unfold countSystem
  by_cases h : m.role = Role.system <;> simp [h]

theorem addMessage_messages (stored : Option ConversationContext)
    (m : ChatMessage) (now : Nat) :
    (addMessage stored m now).messages
      = trimMessages ((stored.getD { messages := [], lastUpdated := now }).messages
          ++ [withTimestamp m now]) := rfl

theorem getD_messages_length (o : Option ConversationContext) (now : Nat) :
    (o.getD { messages := [], lastUpdated := now }).messages.length
      = storedMessageCount o := by
  cases o <;> rfl

theorem getD_messages_system (o : Option ConversationContext) (now : Nat) :
    countSystem (o.getD { messages := [], lastUpdated := now }).messages
      = storedSystemCount o := by
  cases o <;> rfl

/-- Inductive bound for sequences of Conversation Store appends: starting
from a store holding at most 20 messages, if the stored `system` messages
plus the `system` messages still to be appended number at most 19, the
store never exceeds 20 messages. -/
theorem runAppends_length_le (events : List (ChatMessage × Nat)) :
    ∀ storage : Option ConversationContext,
    storedMessageCount storage ≤ 20 →
    storedSystemCount storage + countSystem (events.map Prod.fst) ≤ 19 →
    storedMessageCount (runAppends storage events) ≤ 20 := by
  induction events with
  | nil => intro storage h _; exact h
  | cons e rest ih =>
    intro storage hlen hsys
    have hstep : runAppends storage (e :: rest)
        = runAppends (appendMessage storage e.1 e.2) rest := rfl
    rw [hstep]
    have hread := loadContext_fst_cases storage e.2
    have hreadSys : storedSystemCount (loadContext storage e.2).1
        ≤ storedSystemCount storage := by
      rcases hread with h0 | h0 <;> rw [h0]
      exact Nat.zero_le _
    have hmapcons : countSystem ((e :: rest).map Prod.fst)
        = countSystem [e.1] + countSystem (rest.map Prod.fst) := by
      rw [List.map_cons, show (e.1 :: rest.map Prod.fst)
        = [e.1] ++ rest.map Prod.fst from rfl, countSystem_append]
    rw [hmapcons, countSystem_singleton] at hsys
    apply ih
    · show (addMessage (loadContext storage e.2).1 e.1 e.2).messages.length ≤ 20
      rw [addMessage_messages]
      apply trimMessages_length_le
      rw [countSystem_append, getD_messages_system, countSystem_singleton,
        withTimestamp_role]
      omega
    · show countSystem (addMessage (loadContext storage e.2).1 e.1 e.2).messages
        + countSystem (rest.map Prod.fst) ≤ 19
      rw [addMessage_messages, countSystem_trimMessages, countSystem_append,
        getD_messages_system, countSystem_singleton, withTimestamp_role]
      omega

theorem apiError_ne_special (t : String) :
    ¬ ("API error: " ++ t = "offline" ∨ "API error: " ++ t = "timeout"
        ∨ "API error: " ++ t = "network") := by
  have h11 : ("API error: " : String).length = 11 := by decide
  intro h
  rcases h with h | h | h
  · have hl := congrArg String.length h
    rw [String.length_append, h11] at hl
    have h7 : ("offline" : String).length = 7 := by decide
    omega
  · have hl := congrArg String.length h
    rw [String.length_append, h11] at hl
    have h7 : ("timeout" : String).length = 7 := by decide
    omega
  · have hl := congrArg String.length h
    rw [String.length_append, h11] at hl
    have h7 : ("network" : String).length = 7 := by decide
    omega

/-- A `sendWithRetry` attempt that is not retry-eligible ends the call at
that attempt with the classification of that attempt. -/
theorem sendWithRetryAux_terminal (env : Nat → ApiAttempt) (attempt f : Nat)
    (h : retryEligible attempt (env attempt) = false) :
    sendWithRetryAux env attempt (f + 1)
      = { result := attemptClass (env attempt), attempts := attempt,
          delays := [] } := by
  cases houtcome : env attempt with
  | offline =>
      simp [sendWithRetryAux, bodyOf, houtcome, attemptClass]
  | response status text =>
      by_cases hok : 200 ≤ status ∧ status ≤ 299
      · simp [sendWithRetryAux, bodyOf, houtcome, hok, attemptClass]
      · have h3 : ¬ attempt < PROVIDER_MAX_RETRIES := by
          intro hc
          rw [houtcome] at h
          simp [retryEligible, hok, hc] at h
        have hge : PROVIDER_MAX_RETRIES ≤ attempt := Nat.le_of_not_lt h3
        have hstep : bodyOf attempt (ApiAttempt.response status text)
            = SendStep.thrown ("API error: " ++ toString status) := by
          simp [bodyOf, hok, hge]
        simp only [sendWithRetryAux, houtcome, hstep]
        rw [if_neg (fun hc => h3 hc.1)]
        simp [attemptClass, hok]
  | thrown name isTypeError message =>
      have hstep : bodyOf attempt (ApiAttempt.thrown name isTypeError message)
          = SendStep.thrown (classifyThrown name isTypeError message) := rfl
      by_cases hc : attempt < PROVIDER_MAX_RETRIES
      · have hm : classifyThrown name isTypeError message = "offline"
            ∨ classifyThrown name isTypeError message = "timeout"
            ∨ classifyThrown name isTypeError message = "network" := by
          rw [houtcome] at h
          simp [retryEligible, hc] at h
          tauto
        simp only [sendWithRetryAux, houtcome, hstep]
        rw [if_neg (fun hcond => hcond.2 hm)]
        simp [attemptClass]
      · simp only [sendWithRetryAux, houtcome, hstep]
        rw [if_neg (fun hcond => hc hcond.1)]
        simp [attemptClass]

/-- A retry-eligible `sendWithRetry` attempt recurses to the next attempt
after the exponential-backoff delay. -/
theorem sendWithRetryAux_retry (env : Nat → ApiAttempt) (attempt f : Nat)
    (h : retryEligible attempt (env attempt) = true) :
    sendWithRetryAux env attempt (f + 1)
      = { result := (sendWithRetryAux env (attempt + 1) f).result,
          attempts := (sendWithRetryAux env (attempt + 1) f).attempts,
          delays := RETRY_DELAY_MS * 2 ^ (attempt - 1)
            :: (sendWithRetryAux env (attempt + 1) f).delays } := by
  cases houtcome : env attempt with
  | offline =>
      rw [houtcome] at h
      simp [retryEligible] at h
  | response status text =>
      rw [houtcome] at h
      simp only [retryEligible, Bool.and_eq_true, decide_eq_true_eq,
        Bool.not_eq_true', decide_eq_false_iff_not] at h
      obtain ⟨h3, hok⟩ := h
      have hnge : ¬ PROVIDER_MAX_RETRIES ≤ attempt := Nat.not_le_of_lt h3
      by_cases hretry : status = 429 ∨ 500 ≤ status
      · have hstep : bodyOf attempt (ApiAttempt.response status text)
            = SendStep.retryNow := by
          simp [bodyOf, hok, hnge, hretry]
        simp only [sendWithRetryAux, houtcome, hstep]
      · have hne := apiError_ne_special (toString status)
        have hstep : bodyOf attempt (ApiAttempt.response status text)
            = SendStep.thrown ("API error: " ++ toString status) := by
          simp [bodyOf, hok, hnge, hretry]
        simp only [sendWithRetryAux, houtcome, hstep]
        rw [if_pos ⟨h3, hne⟩]
  | thrown name isTypeError message =>
      rw [houtcome] at h
      simp only [retryEligible, Bool.and_eq_true, decide_eq_true_eq,
        Bool.not_eq_true', Bool.or_eq_false_iff, beq_eq_false_iff_ne,
        ne_eq] at h
      obtain ⟨h3, hm⟩ := h
      have hstep : bodyOf attempt (ApiAttempt.thrown name isTypeError message)
          = SendStep.thrown (classifyThrown name isTypeError message) := rfl
      simp only [sendWithRetryAux, houtcome, hstep]
      rw [if_pos ⟨h3, by tauto⟩]

theorem retryEligible_final (o : ApiAttempt) : retryEligible 3 o = false := by
  simp [retryEligible, PROVIDER_MAX_RETRIES]

/-- Claim C2 (amended): for both provider clients (`sendWithRetry` in the
Claude and OpenAI API clients, token-identical), a failed HTTP call is
retried — up to 3 attempts total, waiting `RETRY_DELAY_MS * 2 ^ (k - 1)`
before retry `k` — exactly when the failure is an HTTP error status of
ANY kind (429 and 5xx, but equally 404, 401 and every other non-OK
status) or a thrown error whose classified message is none of `offline`,
`timeout`, `network`; a timeout, a network-layer error, or an offline
probe is surfaced immediately without any retry. -/
theorem providerClient_retry_policy (env : Nat → ApiAttempt) :
    sendWithRetry env = expectedSendTrace env := by
  have hentry : sendWithRetry env = sendWithRetryAux env 1 3 := rfl
  by_cases e1 : retryEligible 1 (env 1) = true
  · have h1 : sendWithRetryAux env 1 3 = _ := sendWithRetryAux_retry env 1 2 e1
    by_cases e2 : retryEligible 2 (env 2) = true
    · have h2 : sendWithRetryAux env (1 + 1) 2 = _ :=
        sendWithRetryAux_retry env 2 1 e2
      have h3 : sendWithRetryAux env (2 + 1) 1 = _ :=
        sendWithRetryAux_terminal env 3 0 (retryEligible_final (env 3))
      rw [hentry, h1, h2, h3]
      simp only [expectedSendTrace, e1, e2, if_true]
      rfl
    · have h2 : sendWithRetryAux env (1 + 1) 2 = _ :=
        sendWithRetryAux_terminal env 2 1 (Bool.eq_false_iff.mpr e2)
      rw [hentry, h1, h2]
      simp only [expectedSendTrace, e1, e2, if_true, if_false]
      rfl
  · have h1 : sendWithRetryAux env 1 3 = _ :=
      sendWithRetryAux_terminal env 1 2 (Bool.eq_false_iff.mpr e1)
    rw [hentry, h1]
    simp only [expectedSendTrace, e1, if_false]
    rfl

/-- Claim C2 counterexample: a call whose every attempt times out
(AbortError) makes exactly 1 attempt — the timeout is NOT retried,
although the claim says timeouts are retried up to 3 attempts; and a call
whose every attempt returns HTTP 404 makes 3 attempts — a non-retryable
status per the claim is in fact retried rather than surfaced
immediately. -/
theorem providerClient_claim_false :
    (sendWithRetry (fun _ =>
        ApiAttempt.thrown "AbortError" false "The user aborted a request.")).attempts = 1
    ∧ (sendWithRetry (fun _ => ApiAttempt.response 404 "")).attempts = 3 := by
  constructor <;> rfl

theorem fetchWithRetriesAux_attempts_le (env : Nat → FetchOutcome)
    (extract : String → String → ExtractionType → String × BrowseMetadata)
    (url : String) (ty : ExtractionType) (key : String) (time : Nat)
    (cache : CacheMap) (now : Nat) :
    ∀ (fuel attempt : Nat) (lastError : Option String) (delays : List Nat),
    (fetchWithRetriesAux env extract url ty key time cache now attempt fuel
      lastError delays).attempts ≤ attempt + fuel := by
  intro fuel
  induction fuel with
  | zero =>
      intro attempt lastError delays
      simp [fetchWithRetriesAux]
  | succ f ih =>
      intro attempt lastError delays
      unfold fetchWithRetriesAux
      cases henv : env attempt with
      | response status body =>
          dsimp only
          split
          · split
            · exact le_trans (ih (attempt + 1) _ _) (by omega)
            · dsimp only
              omega
          · dsimp only
            omega
      | thrown name message =>
          dsimp only
          split
          · exact le_trans (ih (attempt + 1) _ _) (by omega)
          · dsimp only
            omega

theorem fetchWithRetriesAux_delays (env : Nat → FetchOutcome)
    (extract : String → String → ExtractionType → String × BrowseMetadata)
    (url : String) (ty : ExtractionType) (key : String) (time : Nat)
    (cache : CacheMap) (now : Nat) :
    ∀ (fuel attempt : Nat) (lastError : Option String) (delays0 : List Nat),
    ∃ k, (fetchWithRetriesAux env extract url ty key time cache now attempt
        fuel lastError delays0).delays
      = delays0 ++ (List.range' attempt k).map
          (fun j => BASE_RETRY_DELAY * 2 ^ j) := by
  intro fuel
  induction fuel with
  | zero =>
      intro attempt lastError delays0
      exact ⟨0, by simp [fetchWithRetriesAux]⟩
  | succ f ih =>
      intro attempt lastError delays0
      unfold fetchWithRetriesAux
      cases henv : env attempt with
      | response status body =>
          dsimp only
          split
          · split
            · obtain ⟨k, hk⟩ := ih (attempt + 1) (some ("HTTP error: " ++ toString status))
                (delays0 ++ [BASE_RETRY_DELAY * 2 ^ attempt])
              refine ⟨k + 1, ?_⟩
              rw [hk, List.append_assoc]
              congr 1
            · exact ⟨0, by simp⟩
          · exact ⟨0, by simp⟩
      | thrown name message =>
          dsimp only
          split
          · obtain ⟨k, hk⟩ := ih (attempt + 1) (some message)
              (delays0 ++ [BASE_RETRY_DELAY * 2 ^ attempt])
            refine ⟨k + 1, ?_⟩
            rw [hk, List.append_assoc]
            congr 1
          · exact ⟨0, by simp⟩

/-- One retryable failed attempt before the final loop iteration: record
the error description, await the backoff delay, continue with the next
attempt. -/
theorem fwr_step_retryable (env : Nat → FetchOutcome)
    (extract : String → String → ExtractionType → String × BrowseMetadata)
    (url : String) (ty : ExtractionType) (key : String) (time : Nat)
    (cache : CacheMap) (now : Nat) (attempt f : Nat)
    (lastError : Option String) (delays : List Nat)
    (hlt : attempt < BROWSING_MAX_RETRIES - 1)
    (h : retryableOutcome (env attempt)) :
    fetchWithRetriesAux env extract url ty key time cache now attempt (f + 1)
        lastError delays
      = fetchWithRetriesAux env extract url ty key time cache now (attempt + 1)
          f (some (outcomeErrorDesc (env attempt)))
          (delays ++ [BASE_RETRY_DELAY * 2 ^ attempt]) := by
  cases henv : env attempt with
  | response status body =>
      rw [henv] at h
      obtain ⟨hok, hr⟩ := h
      simp only [fetchWithRetriesAux, henv, outcomeErrorDesc]
      rw [if_pos hok, if_pos hr]
  | thrown name message =>
      rw [henv] at h
      simp only [fetchWithRetriesAux, henv, outcomeErrorDesc]
      rw [if_pos ⟨h, hlt⟩]

/-- A retryable failure on the final loop iteration ends the call with 3
attempts and the failure result carrying the description of that attempt. -/
theorem fwr_final_retryable (env : Nat → FetchOutcome)
    (extract : String → String → ExtractionType → String × BrowseMetadata)
    (url : String) (ty : ExtractionType) (key : String) (time : Nat)
    (cache : CacheMap) (now : Nat) (lastError : Option String)
    (delays : List Nat) (h : retryableOutcome (env 2)) :
    (fetchWithRetriesAux env extract url ty key time cache now 2 1 lastError
        delays).response
      = retriesFailResponse url (some (outcomeErrorDesc (env 2)))
    ∧ (fetchWithRetriesAux env extract url ty key time cache now 2 1 lastError
        delays).attempts = 3
    ∧ (fetchWithRetriesAux env extract url ty key time cache now 2 1 lastError
        delays).cache = cache := by
  cases henv : env 2 with
  | response status body =>
      rw [henv] at h
      obtain ⟨hok, hr⟩ := h
      simp only [fetchWithRetriesAux, henv, outcomeErrorDesc]
      rw [if_pos hok, if_pos hr]
      exact ⟨rfl, rfl, rfl⟩
  | thrown name message =>
      rw [henv] at h
      simp only [fetchWithRetriesAux, henv, outcomeErrorDesc]
      rw [if_neg (by
        intro hc
        have := hc.2
        simp [BROWSING_MAX_RETRIES] at this)]
      exact ⟨rfl, rfl, rfl⟩

/-- A successful attempt extracts, caches and returns; the returned
object is the one `cacheResponse` just mutated. -/
theorem fwr_step_success (env : Nat → FetchOutcome)
    (extract : String → String → ExtractionType → String × BrowseMetadata)
    (url : String) (ty : ExtractionType) (key : String) (time : Nat)
    (cache : CacheMap) (now : Nat) (attempt f : Nat)
    (lastError : Option String) (delays : List Nat) (status : Nat)
    (body : String) (henv : env attempt = FetchOutcome.response status body)
    (hok : 200 ≤ status ∧ status ≤ 299) :
    fetchWithRetriesAux env extract url ty key time cache now attempt (f + 1)
        lastError delays
      = { response := (cacheResponse cache key
            { success := true, url := url,
              content := some (extract body url ty).1,
              metadata := some (extract body url ty).2,
              source := Source.live, error := none } time now).2,
          attempts := attempt + 1, delays := delays,
          cache := (cacheResponse cache key
            { success := true, url := url,
              content := some (extract body url ty).1,
              metadata := some (extract body url ty).2,
              source := Source.live, error := none } time now).1 } := by
  simp only [fetchWithRetriesAux, henv]
  rw [if_neg (not_not_intro hok)]

/-- Every exit of the fetch loop is a tagged result: success with no
error, or failure with an error description. -/
theorem fwr_tagged (env : Nat → FetchOutcome)
    (extract : String → String → ExtractionType → String × BrowseMetadata)
    (url : String) (ty : ExtractionType) (key : String) (time : Nat)
    (cache : CacheMap) (now : Nat) :
    ∀ (fuel attempt : Nat) (lastError : Option String) (delays : List Nat),
    ((fetchWithRetriesAux env extract url ty key time cache now attempt fuel
        lastError delays).response.success = true
      ∧ (fetchWithRetriesAux env extract url ty key time cache now attempt
          fuel lastError delays).response.error = none)
    ∨ ((fetchWithRetriesAux env extract url ty key time cache now attempt fuel
        lastError delays).response.success = false
      ∧ (fetchWithRetriesAux env extract url ty key time cache now attempt
          fuel lastError delays).response.error.isSome = true) := by
  intro fuel
  induction fuel with
  | zero =>
      intro attempt lastError delays
      right
      cases lastError <;> simp [fetchWithRetriesAux, retriesFailResponse]
  | succ f ih =>
      intro attempt lastError delays
      unfold fetchWithRetriesAux
      cases henv : env attempt with
      | response status body =>
          dsimp only
          split
          · split
            · exact ih (attempt + 1) _ _
            · right
              simp [retriesFailResponse]
          · left
            simp [cacheResponse]
      | thrown name message =>
          dsimp only
          split
          · exact ih (attempt + 1) _ _
          · right
            simp [retriesFailResponse]

theorem cacheErase_wf (cache : CacheMap) (key : String) (h : CacheWF cache) :
    CacheWF (cacheErase cache key) := by
  intro p hp
  exact h p (List.mem_of_mem_filter hp)

theorem getCachedResponse_wf (cache : CacheMap) (key : String) (now : Nat)
    (h : CacheWF cache) :
    CacheWF (getCachedResponse cache key now).1 := by
  unfold getCachedResponse
  cases hl : cacheLookup cache key with
  | none => exact h
  | some cached =>
      dsimp only
      split
      · exact cacheErase_wf cache key h
      · exact h

theorem getCachedResponse_hit (cache : CacheMap) (key : String) (now : Nat)
    (r : BrowsingResponse) (h : CacheWF cache)
    (hhit : (getCachedResponse cache key now).2 = some r) :
    r.success = true ∧ r.error = none := by
  unfold getCachedResponse at hhit
  cases hl : cacheLookup cache key with
  | none => rw [hl] at hhit; exact absurd hhit (by simp)
  | some cached =>
      rw [hl] at hhit
      dsimp only at hhit
      split at hhit
      · exact absurd hhit (by simp)
      · have hr : cached.response = r := by
          simpa using hhit
        unfold cacheLookup at hl
        cases hf : List.find? (fun p => p.1 == key) cache with
        | none => rw [hf] at hl; exact absurd hl (by simp)
        | some p =>
            rw [hf] at hl
            have hp : p ∈ cache := List.mem_of_find?_eq_some hf
            have hcached : p.2 = cached := by simpa using hl
            rw [← hr, ← hcached]
            exact h p hp

theorem cacheResponse_wf (cache : CacheMap) (key : String)
    (response : BrowsingResponse) (time now : Nat) (h : CacheWF cache)
    (hs : response.success = true) (he : response.error = none) :
    CacheWF (cacheResponse cache key response time now).1 := by
  intro p hp
  unfold cacheResponse cacheInsert at hp
  rcases List.mem_cons.mp hp with hp | hp
  · rw [hp]
    exact ⟨hs, he⟩
  · exact h p (List.mem_of_mem_filter hp)

theorem fwr_cache_wf (env : Nat → FetchOutcome)
    (extract : String → String → ExtractionType → String × BrowseMetadata)
    (url : String) (ty : ExtractionType) (key : String) (time : Nat)
    (cache : CacheMap) (now : Nat) (h : CacheWF cache) :
    ∀ (fuel attempt : Nat) (lastError : Option String) (delays : List Nat),
    CacheWF (fetchWithRetriesAux env extract url ty key time cache now attempt
      fuel lastError delays).cache := by
  intro fuel
  induction fuel with
  | zero =>
      intro attempt lastError delays
      exact h
  | succ f ih =>
      intro attempt lastError delays
      unfold fetchWithRetriesAux
      cases henv : env attempt with
      | response status body =>
          dsimp only
          split
          · split
            · exact ih (attempt + 1) _ _
            · exact h
          · exact cacheResponse_wf cache key _ time now h rfl rfl
      | thrown name message =>
          dsimp only
          split
          · exact ih (attempt + 1) _ _
          · exact h

/-- Claim C1 (code evaluated at the failing input): a first `browseUrl`
for an allow-listed product URL succeeds after one live network attempt,
but its returned result is tagged `source: cache`, NOT `source: live` —
`cacheResponse` stores the response object and then mutates its `source`
field, and the caller still holds the same object.  The second half of the
claim does hold: a second `browseUrl` for the same `(url, profile)` within
the TTL is served from the cache with zero network attempts, tagged
`source: cache`. -/
theorem browseUrl_live_result_mislabelled :
    demoFirst.response.success = true ∧ demoFirst.attempts = 1
    ∧ demoFirst.response.source = Source.cache
    ∧ demoSecond.attempts = 0 ∧ demoSecond.response.success = true
    ∧ demoSecond.response.source = Source.cache := by decide

/-- Claim C5: with a domain ceiling of `N` and `N` recorded timestamps
all inside the trailing 60-second window, the next request is rejected;
once the window has slid past the oldest recorded timestamp, a new
request is admitted again. -/
theorem rateLimiter_sliding_window (domain : String) (N : Nat) (t1 : Nat)
    (rest : List Nat) (now now2 : Nat)
    (hlen : (t1 :: rest).length = N)
    (hwin : ∀ x ∈ t1 :: rest, now - 60000 ≤ x)
    (hslide : t1 < now2 - 60000) :
    (attemptRequest
        (some { domain := domain, requestTimes := t1 :: rest, limit := N })
        domain N now).1 = false
    ∧ (attemptRequest
        (some { domain := domain, requestTimes := t1 :: rest, limit := N })
        domain N now2).1 = true := by
  have hfst : ∀ t : Nat, (canMakeRequest
      (some { domain := domain, requestTimes := t1 :: rest, limit := N })
      domain N t).1
    = decide (((t1 :: rest).filter
        (fun time => t - 60000 ≤ time)).length < N) := by
    intro t
    simp [canMakeRequest]
  constructor
  · have hfilter : (t1 :: rest).filter (fun time => now - 60000 ≤ time)
        = t1 :: rest :=
      List.filter_eq_self.mpr (fun a ha => by simpa using hwin a ha)
    have hcheck : (canMakeRequest
        (some { domain := domain, requestTimes := t1 :: rest, limit := N })
        domain N now).1 = false := by
      rw [hfst now, hfilter, hlen]
      simp
    unfold attemptRequest
    rw [hcheck]
    rfl
  · have hhead : (decide (now2 - 60000 ≤ t1)) = false := by
      simp only [decide_eq_false_iff_not]
      omega
    have hle : ((t1 :: rest).filter
        (fun time => now2 - 60000 ≤ time)).length < N := by
      rw [List.filter_cons]
      rw [hhead]
      simp only [Bool.false_eq_true, if_false]
      have := List.length_filter_le (fun time => decide (now2 - 60000 ≤ time)) rest
      simp only [List.length_cons] at hlen
      omega
    have hcheck : (canMakeRequest
        (some { domain := domain, requestTimes := t1 :: rest, limit := N })
        domain N now2).1 = true := by
      rw [hfst now2]
      simpa using hle
    unfold attemptRequest
    rw [hcheck]
    rfl

/-- Claim C5 witness: ceiling 2, two requests recorded at 100000 ms and
100001 ms; a third at 100002 ms is rejected, and at 160001 ms (window past
the oldest timestamp) a new one is admitted. -/
theorem rateLimiter_sliding_window_witness :
    (attemptRequest
        (some { domain := "amazon.com", requestTimes := [100000, 100001],
                limit := 2 }) "amazon.com" 2 100002).1 = false
    ∧ (attemptRequest
        (some { domain := "amazon.com", requestTimes := [100000, 100001],
                limit := 2 }) "amazon.com" 2 160001).1 = true :=
  rateLimiter_sliding_window "amazon.com" 2 100000 [100001] 100002 160001
    (by decide) (by decide) (by decide)

/-- Claim C6: `browseUrl` makes at most 3 network attempts; every backoff
delay awaited before retry `k` equals `BASE_RETRY_DELAY * 2 ^ (k - 1)`
(entry `i = k - 1` of the delay list is `1000 * 2 ^ i`); and a fetch that
gets HTTP 503 twice and then HTTP 200 returns a success result after
exactly 3 attempts, having paused 1000 ms and then 2000 ms. -/
theorem browsing_retry_backoff :
    (∀ (allowedDomains : List AllowedDomain) (parsed : Option UrlObj)
      (request : BrowsingRequest) (ddct : Nat) (env : Nat → FetchOutcome)
      (extract : String → String → ExtractionType → String × BrowseMetadata)
      (cache : CacheMap) (rates : RateMap) (now : Nat),
      (browseUrl allowedDomains parsed request ddct env extract cache rates
        now).attempts ≤ 3)
    ∧ (∀ (env : Nat → FetchOutcome)
      (extract : String → String → ExtractionType → String × BrowseMetadata)
      (url : String) (ty : ExtractionType) (key : String) (time : Nat)
      (cache : CacheMap) (now : Nat) (i : Nat)
      (h : i < (fetchWithRetries env extract url ty key time cache
          now).delays.length),
      (fetchWithRetries env extract url ty key time cache now).delays.get
        ⟨i, h⟩ = BASE_RETRY_DELAY * 2 ^ i)
    ∧ (∀ (env : Nat → FetchOutcome)
      (extract : String → String → ExtractionType → String × BrowseMetadata)
      (url : String) (ty : ExtractionType) (key : String) (time : Nat)
      (cache : CacheMap) (now : Nat) (b0 b1 body : String),
      env 0 = FetchOutcome.response 503 b0 →
      env 1 = FetchOutcome.response 503 b1 →
      env 2 = FetchOutcome.response 200 body →
      (fetchWithRetries env extract url ty key time cache
        now).response.success = true
      ∧ (fetchWithRetries env extract url ty key time cache now).attempts = 3
      ∧ (fetchWithRetries env extract url ty key time cache now).delays
          = [1000, 2000]) := by
  refine ⟨?_, ?_, ?_⟩
  · intro allowedDomains parsed request ddct env extract cache rates now
    unfold browseUrl
    split
    · exact Nat.zero_le 3
    · split
      · exact Nat.zero_le 3
      · dsimp only
        split
        · exact Nat.zero_le 3
        · split
          · exact Nat.zero_le 3
          · exact fetchWithRetriesAux_attempts_le env extract _ _ _ _ _ now
              BROWSING_MAX_RETRIES 0 none []
  · intro env extract url ty key time cache now i h
    obtain ⟨k, hk⟩ := fetchWithRetriesAux_delays env extract url ty key time
      cache now BROWSING_MAX_RETRIES 0 none []
    have hk2 : (fetchWithRetries env extract url ty key time cache now).delays
        = (List.range k).map (fun j => BASE_RETRY_DELAY * 2 ^ j) := by
      rw [List.range_eq_range']
      simpa using hk
    rw [List.get_of_eq hk2]
    simp
  · intro env extract url ty key time cache now b0 b1 body h0 h1 h2
    have hr0 : retryableOutcome (env 0) := by
      rw [h0]
      exact ⟨by omega, by decide⟩
    have hr1 : retryableOutcome (env 1) := by
      rw [h1]
      exact ⟨by omega, by decide⟩
    have e0 : fetchWithRetries env extract url ty key time cache now
        = fetchWithRetriesAux env extract url ty key time cache now 0 (2 + 1)
            none [] := rfl
    have e1 := fwr_step_retryable env extract url ty key time cache now 0 2
      none [] (by decide) hr0
    have e2 := fwr_step_retryable env extract url ty key time cache now 1 1
      (some (outcomeErrorDesc (env 0)))
      ([] ++ [BASE_RETRY_DELAY * 2 ^ 0]) (by decide) hr1
    have e3 := fwr_step_success env extract url ty key time cache now 2 0
      (some (outcomeErrorDesc (env 1)))
      (([] ++ [BASE_RETRY_DELAY * 2 ^ 0]) ++ [BASE_RETRY_DELAY * 2 ^ 1])
      200 body h2 (by omega)
    rw [e0, e1, e2, e3]
    refine ⟨by simp [cacheResponse], rfl, ?_⟩
    simp [BASE_RETRY_DELAY]

/-- Claim C6 witness: the delay-shape conjunct evaluated on the concrete
always-503 environment (three attempts, delays 1000 then 2000 then 4000,
each entry `1000 * 2 ^ i`), and the 503-503-200 scenario evaluated
concretely. -/
theorem browsing_retry_backoff_witness :
    (browseUrl ALLOWED_DOMAINS demoParsed demoRequest 3600
      (fun _ => FetchOutcome.response 503 "") demoExtract [] [] 0).attempts ≤ 3
    ∧ (0 : Nat) < (fetchWithRetries (fun _ => FetchOutcome.response 503 "")
        demoExtract "u" ExtractionType.full "u:full" 60 [] 0).delays.length
    ∧ (fetchWithRetries (fun n => if n = 2 then FetchOutcome.response 200 "ok"
          else FetchOutcome.response 503 "") demoExtract "u"
        ExtractionType.full "u:full" 60 [] 0).response.success = true := by
  refine ⟨browsing_retry_backoff.1 ALLOWED_DOMAINS demoParsed demoRequest 3600
    (fun _ => FetchOutcome.response 503 "") demoExtract [] [] 0, by decide, ?_⟩
  exact (browsing_retry_backoff.2.2 (fun n => if n = 2 then
    FetchOutcome.response 200 "ok" else FetchOutcome.response 503 "")
    demoExtract "u" ExtractionType.full "u:full" 60 [] 0 "" "" "ok"
    (by decide) (by decide) (by decide)).1

/-- Claim C7: `browseUrl` never raises past its boundary — under the cache
invariant, every call returns a tagged result (success with no error, or
`success = false` with an error description), and the invariant is
preserved; and when all three attempts fail with retryable conditions,
the failure result carries the description of the LAST observed error. -/
theorem browseUrl_total_tagged :
    (∀ (allowedDomains : List AllowedDomain) (parsed : Option UrlObj)
      (request : BrowsingRequest) (ddct : Nat) (env : Nat → FetchOutcome)
      (extract : String → String → ExtractionType → String × BrowseMetadata)
      (cache : CacheMap) (rates : RateMap) (now : Nat),
      CacheWF cache →
      ((browseUrl allowedDomains parsed request ddct env extract cache rates
          now).response.success = true
        ∧ (browseUrl allowedDomains parsed request ddct env extract cache
            rates now).response.error = none)
      ∨ ((browseUrl allowedDomains parsed request ddct env extract cache rates
          now).response.success = false
        ∧ (browseUrl allowedDomains parsed request ddct env extract cache
            rates now).response.error.isSome = true))
    ∧ (∀ (allowedDomains : List AllowedDomain) (parsed : Option UrlObj)
      (request : BrowsingRequest) (ddct : Nat) (env : Nat → FetchOutcome)
      (extract : String → String → ExtractionType → String × BrowseMetadata)
      (cache : CacheMap) (rates : RateMap) (now : Nat),
      CacheWF cache →
      CacheWF (browseUrl allowedDomains parsed request ddct env extract cache
        rates now).cache)
    ∧ (∀ (env : Nat → FetchOutcome)
      (extract : String → String → ExtractionType → String × BrowseMetadata)
      (url : String) (ty : ExtractionType) (key : String) (time : Nat)
      (cache : CacheMap) (now : Nat),
      (∀ k, k < 3 → retryableOutcome (env k)) →
      (fetchWithRetries env extract url ty key time cache
        now).response.success = false
      ∧ (fetchWithRetries env extract url ty key time cache
          now).response.error
        = some ("Error: " ++ outcomeErrorDesc (env 2))) := by
  refine ⟨?_, ?_, ?_⟩
  · intro allowedDomains parsed request ddct env extract cache rates now hwf
    unfold browseUrl
    split
    · right
      simp [browseFailResponse]
    · split
      · right
        simp [browseFailResponse]
      · dsimp only
        split
        · rename_i cachedResponse hhit
          exact Or.inl (getCachedResponse_hit cache _ now cachedResponse hwf hhit)
        · split
          · right
            simp [browseFailResponse]
          · exact fwr_tagged env extract _ _ _ _ _ now BROWSING_MAX_RETRIES 0
              none []
  · intro allowedDomains parsed request ddct env extract cache rates now hwf
    unfold browseUrl
    split
    · exact hwf
    · split
      · exact hwf
      · dsimp only
        split
        · exact getCachedResponse_wf cache _ now hwf
        · split
          · exact getCachedResponse_wf cache _ now hwf
          · exact fwr_cache_wf env extract _ _ _ _ _ now
              (getCachedResponse_wf cache _ now hwf) BROWSING_MAX_RETRIES 0
              none []
  · intro env extract url ty key time cache now h
    have hr0 := h 0 (by omega)
    have hr1 := h 1 (by omega)
    have hr2 := h 2 (by omega)
    have e0 : fetchWithRetries env extract url ty key time cache now
        = fetchWithRetriesAux env extract url ty key time cache now 0 (2 + 1)
            none [] := rfl
    have e1 := fwr_step_retryable env extract url ty key time cache now 0 2
      none [] (by decide) hr0
    have e2 := fwr_step_retryable env extract url ty key time cache now 1 1
      (some (outcomeErrorDesc (env 0)))
      ([] ++ [BASE_RETRY_DELAY * 2 ^ 0]) (by decide) hr1
    obtain ⟨hresp, _, _⟩ := fwr_final_retryable env extract url ty key time
      cache now (some (outcomeErrorDesc (env 1)))
      (([] ++ [BASE_RETRY_DELAY * 2 ^ 0]) ++ [BASE_RETRY_DELAY * 2 ^ 1]) hr2
    rw [e0, e1, e2, hresp]
    exact ⟨rfl, rfl⟩

/-- Claim C7 witness: a rate-limit-saturated call returns a tagged
failure (the invariant hypothesis discharged on the empty cache), and the
exhausted-retries conjunct evaluated on an environment whose three
attempts fail with 500, 503 and a network error: the result carries the
LAST message. -/
theorem browseUrl_total_tagged_witness :
    (((browseUrl ALLOWED_DOMAINS demoParsed demoRequest 3600 demoEnv
        demoExtract [] demoSaturatedRates 600).response.success = true
      ∧ (browseUrl ALLOWED_DOMAINS demoParsed demoRequest 3600 demoEnv
          demoExtract [] demoSaturatedRates 600).response.error = none)
    ∨ ((browseUrl ALLOWED_DOMAINS demoParsed demoRequest 3600 demoEnv
        demoExtract [] demoSaturatedRates 600).response.success = false
      ∧ (browseUrl ALLOWED_DOMAINS demoParsed demoRequest 3600 demoEnv
          demoExtract [] demoSaturatedRates 600).response.error.isSome
          = true))
    ∧ (fetchWithRetries demoFailEnv demoExtract "u" ExtractionType.full
        "u:full" 60 [] 0).response.error
      = some ("Error: " ++
          "NetworkError when attempting to fetch resource.") := by
  constructor
  · exact browseUrl_total_tagged.1 ALLOWED_DOMAINS demoParsed demoRequest 3600
      demoEnv demoExtract [] demoSaturatedRates 600
      (by intro p hp; cases hp)
  · exact (browseUrl_total_tagged.2.2 demoFailEnv demoExtract "u"
      ExtractionType.full "u:full" 60 [] 0
      (by
        intro k hk
        interval_cases k
        · exact ⟨by omega, by decide⟩
        · exact ⟨by omega, by decide⟩
        · show isRetryableError "TypeError"
            "NetworkError when attempting to fetch resource." = true
          decide)).2

/-- Claim C3 (amended): when the runtime is offline and a Claude API key
is configured, no provider or network call is attempted
(`networkAttempts = 0`) and the Conversation Store is left UNCHANGED —
the offline check throws before `chatContextManager.addMessage` runs, so
neither the user message nor the apology is appended; the locally
synthesized offline apology is only RETURNED to the caller as the reply. -/
theorem claudeService_offline_no_store_write
    (store : Option ConversationContext) (k : String) (message : ChatMessage)
    (env : Nat → ApiAttempt) (now : Nat) :
    claudeSendMessage store false (some k) message env now
      = { reply := "It looks like you\x27re currently offline. Please check your internet connection and try again when you\x27re back online.",
          store := store, networkAttempts := 0 } := rfl

/-- Claim C3 counterexample: an offline submission with a configured key
and an empty store leaves the store holding 0 messages — not the 2 the
claim requires (the user message followed by an offline-apology assistant
message). -/
theorem claudeService_offline_claim_false :
    storedMessageCount (claudeSendMessage none false (some "key")
        { role := Role.user, content := "hi", timestamp := some 1 }
        (fun _ => ApiAttempt.offline) 1).store = 0
    ∧ storedMessageCount (claudeSendMessage none false (some "key")
        { role := Role.user, content := "hi", timestamp := some 1 }
        (fun _ => ApiAttempt.offline) 1).store ≠ 2 := by
  constructor
  · rfl
  · decide

/-- Claim C9: when the credential for the resolved provider selection is
absent and the message is plain (no retrieval intent), the orchestrator
returns a configuration-prompt message, dispatches no provider call, and
leaves the Conversation Store untouched. -/
theorem aiService_missing_credentials (store : Option ConversationContext)
    (onLine : Bool) (claudeKey openaiKey : Option String)
    (selectedProvider : Option String) (message : ChatMessage)
    (envC envO : Nat → ApiAttempt) (now : Nat)
    (h : credentialsMissing claudeKey openaiKey selectedProvider) :
    (aiSendMessagePlain store onLine claudeKey openaiKey selectedProvider
      message envC envO now).store = store
    ∧ (aiSendMessagePlain store onLine claudeKey openaiKey selectedProvider
        message envC envO now).networkAttempts = 0
    ∧ ((aiSendMessagePlain store onLine claudeKey openaiKey selectedProvider
          message envC envO now).reply
        = "Please add your Claude API key in the settings to use this service."
      ∨ (aiSendMessagePlain store onLine claudeKey openaiKey selectedProvider
          message envC envO now).reply
        = "Please add your OpenAI API key in the settings to use this service."
      ∨ (aiSendMessagePlain store onLine claudeKey openaiKey selectedProvider
          message envC envO now).reply
        = "Please configure at least one AI provider API key in the settings.") := by
  unfold credentialsMissing at h
  unfold aiSendMessagePlain
  by_cases h1 : resolveProvider selectedProvider = "claude"
  · rw [if_pos h1] at h
    rw [if_pos h1, h]
    exact ⟨rfl, rfl, Or.inl rfl⟩
  · rw [if_neg h1] at h
    rw [if_neg h1]
    by_cases h2 : resolveProvider selectedProvider = "openai"
    · rw [if_pos h2] at h
      rw [if_pos h2, h]
      exact ⟨rfl, rfl, Or.inr (Or.inl rfl)⟩
    · rw [if_neg h2] at h
      rw [if_neg h2]
      obtain ⟨hc, ho⟩ := h
      by_cases h3 : resolveProvider selectedProvider = "both"
      · rw [if_pos h3, hc, ho]
        exact ⟨rfl, rfl, Or.inr (Or.inl rfl)⟩
      · rw [if_neg h3, hc, ho]
        exact ⟨rfl, rfl, Or.inr (Or.inr rfl)⟩

/-- Claim C9 witness: no key configured, default (`claude`) selection,
plain message: the store stays empty, no attempt is made, and the Claude
configuration prompt is returned. -/
theorem aiService_missing_credentials_witness :
    (aiSendMessagePlain none true none none none
      { role := Role.user, content := "hello", timestamp := some 1 }
      (fun _ => ApiAttempt.offline) (fun _ => ApiAttempt.offline) 1).store
      = none
    ∧ (aiSendMessagePlain none true none none none
        { role := Role.user, content := "hello", timestamp := some 1 }
        (fun _ => ApiAttempt.offline) (fun _ => ApiAttempt.offline) 1).networkAttempts = 0
    ∧ ((aiSendMessagePlain none true none none none
          { role := Role.user, content := "hello", timestamp := some 1 }
          (fun _ => ApiAttempt.offline) (fun _ => ApiAttempt.offline) 1).reply
        = "Please add your Claude API key in the settings to use this service."
      ∨ (aiSendMessagePlain none true none none none
          { role := Role.user, content := "hello", timestamp := some 1 }
          (fun _ => ApiAttempt.offline) (fun _ => ApiAttempt.offline) 1).reply
        = "Please add your OpenAI API key in the settings to use this service."
      ∨ (aiSendMessagePlain none true none none none
          { role := Role.user, content := "hello", timestamp := some 1 }
          (fun _ => ApiAttempt.offline) (fun _ => ApiAttempt.offline) 1).reply
        = "Please configure at least one AI provider API key in the settings.") :=
  aiService_missing_credentials none true none none none
    { role := Role.user, content := "hello", timestamp := some 1 }
    (fun _ => ApiAttempt.offline) (fun _ => ApiAttempt.offline) 1
    (by simp [credentialsMissing, resolveProvider])

/-- Claim C4 (amended): for every sequence of appends in which fewer than
20 of the appended messages have role `system`, the stored message count
never exceeds 20 after any append; and, unconditionally, every
`system`-role message present before the size-bound trim is still present
after it.  (When 20 or more `system` messages accumulate, the trim in the code
keeps them all and the bound fails — see the counterexample.) -/
theorem conversationStore_bound_system_preserved :
    (∀ events : List (ChatMessage × Nat),
      countSystem (events.map Prod.fst) ≤ 19 →
      storedMessageCount (runAppends none events) ≤ 20)
    ∧ (∀ (c : ConversationContext) (m : ChatMessage) (now : Nat)
        (x : ChatMessage),
      x ∈ c.messages ++ [withTimestamp m now] → x.role = Role.system →
      x ∈ (addMessage (some c) m now).messages) := by
  constructor
  · intro events h
    refine runAppends_length_le events none ?_ ?_
    · simp [storedMessageCount]
    · simpa [storedSystemCount] using h
  · intro c m now x hx hrole
    show x ∈ trimMessages (c.messages ++ [withTimestamp m now])
    exact trimMessages_system_mem _ x hx hrole

/-- Claim C4 witness: a single user append stays within the bound, and a
`system` message appended onto a full context of 20 user messages
survives the trim. -/
theorem conversationStore_bound_witness :
    storedMessageCount (runAppends none
      [({ role := Role.user, content := "a", timestamp := some 1 }, 1)]) ≤ 20
    ∧ demoSys ∈ (addMessage (some demoFullCtx) demoSys 5).messages := by
  constructor
  · exact conversationStore_bound_system_preserved.1 _ (by decide)
  · exact conversationStore_bound_system_preserved.2 demoFullCtx demoSys 5
      demoSys (by decide) (by decide)

/-- Claim C4 counterexample: appending 21 `system`-role messages leaves
the store with 21 messages — the 20-message bound is violated, because
the trim retains every `system` message unconditionally. -/
theorem conversationStore_bound_false :
    20 < storedMessageCount (runAppends none (List.replicate 21
      ({ role := Role.system, content := "s", timestamp := some 0 },
        (0 : Nat)))) := by decide

/-- Claim C8: a Conversation Store read more than 24 hours after the
stored `lastUpdated` returns absent and clears the underlying storage,
and a subsequent read (at any time) also returns absent — the expired
context is discarded in full. -/
theorem contextStorage_ttl_expiry (c : ConversationContext) (now now2 : Nat)
    (h : c.lastUpdated + CONTEXT_EXPIRY < now) :
    loadContext (some c) now = (none, none)
    ∧ loadContext (loadContext (some c) now).2 now2 = (none, none) := by
  have hc : (CONTEXT_EXPIRY : Int) < (now : Int) - (c.lastUpdated : Int) := by
    omega
  have h1 : loadContext (some c) now = (none, none) := by
    unfold loadContext
    dsimp only
    rw [if_pos hc]
  refine ⟨h1, ?_⟩
  rw [h1]
  rfl

/-- Claim C8 witness: a context last updated at 0 read at 24h + 1 ms is
absent and the store is cleared; a second read at time 5 is also absent. -/
theorem contextStorage_ttl_expiry_witness :
    loadContext (some { messages := [], lastUpdated := 0 }) 86400001
      = (none, none)
    ∧ loadContext (loadContext (some { messages := [], lastUpdated := 0 })
        86400001).2 5 = (none, none) :=
  contextStorage_ttl_expiry { messages := [], lastUpdated := 0 } 86400001 5
    (by decide)

/-- Claim C10: whenever an append triggers the size-bound trim, the
resulting list is all `system` messages first — in their original
relative order (the `take` prefix IS the `system` filter of the pushed
list) — followed only by retained non-`system` messages, which form a
suffix (the most recent ones) of the non-`system` messages; so a `system`
message appended after a non-`system` one jumps ahead of it across a
trim. -/
theorem addMessage_trim_order (c : ConversationContext) (m : ChatMessage)
    (now : Nat)
    (h : MAX_CONTEXT_SIZE < (c.messages ++ [withTimestamp m now]).length) :
    (addMessage (some c) m now).messages.take
        (countSystem (c.messages ++ [withTimestamp m now]))
      = (c.messages ++ [withTimestamp m now]).filter
          (fun x => x.role = Role.system)
    ∧ List.IsSuffix
        ((addMessage (some c) m now).messages.drop
          (countSystem (c.messages ++ [withTimestamp m now])))
        ((c.messages ++ [withTimestamp m now]).filter
          (fun x => ¬ x.role = Role.system))
    ∧ (∀ x ∈ (addMessage (some c) m now).messages.drop
          (countSystem (c.messages ++ [withTimestamp m now])),
        ¬ x.role = Role.system) := by
  have hmsg : (addMessage (some c) m now).messages
      = ((c.messages ++ [withTimestamp m now]).filter
          (fun x => x.role = Role.system))
        ++ jsSliceFrom ((c.messages ++ [withTimestamp m now]).filter
            (fun x => ¬ x.role = Role.system))
          ((((c.messages ++ [withTimestamp m now]).filter
              (fun x => x.role = Role.system)).length : Int)
            - (MAX_CONTEXT_SIZE : Int)) := by
    show trimMessages (c.messages ++ [withTimestamp m now]) = _
    unfold trimMessages
    rw [if_pos h]
  have hcount : countSystem (c.messages ++ [withTimestamp m now])
      = ((c.messages ++ [withTimestamp m now]).filter
          (fun x => x.role = Role.system)).length := rfl
  refine ⟨?_, ?_, ?_⟩
  · rw [hmsg, hcount]
    exact List.take_left _ _
  · rw [hmsg, hcount, List.drop_left]
    exact jsSliceFrom_isSuffix _ _
  · intro x hxmem
    rw [hmsg, hcount, List.drop_left] at hxmem
    have hx2 : x ∈ (c.messages ++ [withTimestamp m now]).filter
        (fun x => ¬ x.role = Role.system) :=
      (jsSliceFrom_isSuffix _ _).subset hxmem
    have := (List.mem_filter.mp hx2).2
    simpa using this

/-- Claim C10 witness: appending a 21st message onto a context holding a
`system` persona message and 19 user messages triggers the trim; the
prefix of the result is exactly the `system` filter, the remainder is a suffix
of the non-`system` messages, and it contains no `system` message. -/
theorem addMessage_trim_order_witness :
    (addMessage (some demoCtx) demoUser 9).messages.take
        (countSystem (demoCtx.messages ++ [withTimestamp demoUser 9]))
      = (demoCtx.messages ++ [withTimestamp demoUser 9]).filter
          (fun x => x.role = Role.system)
    ∧ List.IsSuffix
        ((addMessage (some demoCtx) demoUser 9).messages.drop
          (countSystem (demoCtx.messages ++ [withTimestamp demoUser 9])))
        ((demoCtx.messages ++ [withTimestamp demoUser 9]).filter
          (fun x => ¬ x.role = Role.system))
    ∧ (∀ x ∈ (addMessage (some demoCtx) demoUser 9).messages.drop
          (countSystem (demoCtx.messages ++ [withTimestamp demoUser 9])),
        ¬ x.role = Role.system) :=
  addMessage_trim_order demoCtx demoUser 9 (by decide)

end SupportBot
